import Mathlib

/-!
Verification of the CSC (Cycling Speed and Cadence) measurement decoding and
speed-derivation core of a BLE cycling-sensor monitor.

The embedded code is `CyclingSensorMonitor.parse_csc_measurement` from
`read.py`, together with the monitor's mutable fields
(`last_wheel_revs`, `last_wheel_time`, `speed_kmh`) that it reads and writes.

Modelling choices:
* a notification buffer is a `List Nat` of byte values (each byte `< 256` on
  real inputs; the decoder itself never depends on that bound because it only
  assembles little-endian integers from the listed positions);
* Python's unbounded signed integer arithmetic on deltas is `Int`;
* Python floats are modelled as exact rationals `ℚ` (every operation the code
  performs — division, multiplication by 3.6 — is modelled exactly);
* the `timestamp` field of the result dictionary (wall-clock `datetime.now()`)
  is I/O and is not part of the model;
* the mutation of `self` is explicit state passing: the function returns the
  decoded measurement (or `none` for an empty buffer) together with the
  post-call monitor state.
-/

/-- Wheel circumference constant from `read.py` (`WHEEL_CIRCUMFERENCE_MM = 2105`). -/
def WHEEL_CIRCUMFERENCE_MM : Nat := 2105

/-- `data[i]` for an in-range index (every use in the decoder is guarded by a
length check, exactly as the slices in the source are). -/
def byteAt (data : List Nat) (i : Nat) : Nat := data.getD i 0

/-- `struct.unpack('<H', data[i:i+2])[0]`: 2-byte little-endian unsigned. -/
def le16 (data : List Nat) (i : Nat) : Nat :=
  byteAt data i + 256 * byteAt data (i + 1)

/-- `struct.unpack('<I', data[i:i+4])[0]`: 4-byte little-endian unsigned. -/
def le32 (data : List Nat) (i : Nat) : Nat :=
  byteAt data i + 256 * byteAt data (i + 1) + 65536 * byteAt data (i + 2) +
    16777216 * byteAt data (i + 3)

/-- `flags & 0x01` as a truth value (`wheel_revolution_present` in the source). -/
def wheel_revolution_present (flags : Nat) : Bool := flags &&& 1 != 0

/-- `flags & 0x02` as a truth value (`crank_revolution_present` in the source). -/
def crank_revolution_present (flags : Nat) : Bool := flags &&& 2 != 0

/-- The mutable fields of `CyclingSensorMonitor` touched by
`parse_csc_measurement`: `last_wheel_revs`, `last_wheel_time`, `speed_kmh`.
`__init__` sets them to `None`, `None`, `0.0`. -/
structure MonitorState where
  last_wheel_revs : Option Nat
  last_wheel_time : Option Nat
  speed_kmh : ℚ
deriving DecidableEq, Repr

/-- `CyclingSensorMonitor.__init__`: `last_wheel_revs = None`,
`last_wheel_time = None`, `speed_kmh = 0.0`. -/
def initial_monitor_state : MonitorState :=
  { last_wheel_revs := none, last_wheel_time := none, speed_kmh := 0 }

/-- The result dictionary built by `parse_csc_measurement` (minus the
wall-clock `timestamp` string, which is I/O). Fields default to `None`
(`none`) and `0.0`. -/
structure CscMeasurement where
  wheel_revs : Option Nat
  wheel_time : Option Nat
  crank_revs : Option Nat
  crank_time : Option Nat
  speed_kmh : ℚ
deriving DecidableEq, Repr

/-- `rev_diff = wheel_revs - self.last_wheel_revs` (line 136 of `read.py`):
plain signed subtraction, no rollover correction of any kind. -/
def rev_diff (last_revs wheel_revs : Nat) : ℤ :=
  (wheel_revs : ℤ) - (last_revs : ℤ)

/-- `time_diff = wheel_time - self.last_wheel_time` followed by
`if time_diff < 0: time_diff += 65536` (lines 137-141 of `read.py`). -/
def corrected_time_diff (last_time wheel_time : Nat) : ℤ :=
  let raw : ℤ := (wheel_time : ℤ) - (last_time : ℤ)
  if raw < 0 then raw + 65536 else raw

/-- Lines 144-148 of `read.py`: `time_seconds = time_diff / 1024.0`,
`distance_meters = (rev_diff * WHEEL_CIRCUMFERENCE_MM) / 1000.0`,
`speed_ms = distance_meters / time_seconds`, `speed_kmh = speed_ms * 3.6`. -/
def speed_from_deltas (rd td : ℤ) : ℚ :=
  let time_seconds : ℚ := (td : ℚ) / 1024
  let distance_meters : ℚ := ((rd : ℚ) * (WHEEL_CIRCUMFERENCE_MM : ℚ)) / 1000
  let speed_ms : ℚ := distance_meters / time_seconds
  speed_ms * (36 / 10)

/-- The speed-update block, lines 135-149 of `read.py`: given the stored
`last_wheel_revs` / `last_wheel_time` / `speed_kmh` and the freshly decoded
wheel sample, return the new stored speed together with a flag recording
whether line 149 (`result['speed_kmh'] = self.speed_kmh`) executed.
The `if` on line 135 is the outer `match`; the guard `time_diff > 0` is the
inner `if`; when it fails both the stored speed and the result field are left
alone. -/
def wheel_update (last_revs last_time : Option Nat) (prev_speed : ℚ)
    (wheel_revs wheel_time : Nat) : ℚ × Bool :=
  match last_revs, last_time with
  | some lr, some lt =>
      let rd := rev_diff lr wheel_revs
      let td := corrected_time_diff lt wheel_time
      if 0 < td then (speed_from_deltas rd td, true) else (prev_speed, false)
  | _, _ => (prev_speed, false)

/-- Lines 156-160 of `read.py`: `if crank_revolution_present and
len(data) >= offset + 4`, read two little-endian 16-bit fields at `offset`
and `offset + 2`; otherwise the result dictionary keeps its `None` defaults. -/
def crank_fields (flags : Nat) (data : List Nat) (offset : Nat) :
    Option Nat × Option Nat :=
  if crank_revolution_present flags = true ∧ offset + 4 ≤ data.length then
    (some (le16 data offset), some (le16 data (offset + 2)))
  else (none, none)

/-- `CyclingSensorMonitor.parse_csc_measurement` (lines 108-162 of `read.py`)
with the monitor's mutable state passed explicitly.  Returns the decoded
measurement (`none` iff the buffer is empty, line 110-111) and the state after
the call.  The wheel branch runs when flags bit 0 is set *and*
`len(data) >= 7` (line 128); only then is the offset advanced to 7, so the
crank branch reads at offset 7 in that case and at offset 1 otherwise
(line 156). -/
def parse_csc_measurement (s : MonitorState) (data : List Nat) :
    Option CscMeasurement × MonitorState :=
  if data.length < 1 then (none, s)
  else
    let flags := byteAt data 0
    if wheel_revolution_present flags = true ∧ 7 ≤ data.length then
      let wheel_revs := le32 data 1
      let wheel_time := le16 data 5
      let upd := wheel_update s.last_wheel_revs s.last_wheel_time s.speed_kmh
        wheel_revs wheel_time
      let ck := crank_fields flags data 7
      (some { wheel_revs := some wheel_revs, wheel_time := some wheel_time,
              crank_revs := ck.1, crank_time := ck.2,
              speed_kmh := if upd.2 then upd.1 else 0 },
       { last_wheel_revs := some wheel_revs, last_wheel_time := some wheel_time,
         speed_kmh := upd.1 })
    else
      let ck := crank_fields flags data 1
      (some { wheel_revs := none, wheel_time := none,
              crank_revs := ck.1, crank_time := ck.2, speed_kmh := 0 },
       s)

/-- Processing a stream of notifications in arrival order: each frame is fed
to `parse_csc_measurement` and the state threads through (this is what the
notification callback does to `self` over a session). -/
def process (s : MonitorState) (frames : List (List Nat)) : MonitorState :=
  frames.foldl (fun st d => (parse_csc_measurement st d).2) s

example : le32 [1, 250, 255, 255, 255, 0, 0] 1 = 4294967290 := by decide
example : le16 [1, 4, 0, 0, 0, 0, 4] 5 = 1024 := by decide
example :
    (parse_csc_measurement initial_monitor_state [1, 2, 0, 0, 0, 0, 0]).2 =
      { last_wheel_revs := some 2, last_wheel_time := some 0, speed_kmh := 0 } := by
  decide

/-! ### Branch lemmas for `parse_csc_measurement` -/

theorem parse_empty (s : MonitorState) (data : List Nat) (h : data.length = 0) :
    parse_csc_measurement s data = (none, s) := by
  unfold parse_csc_measurement
  rw [if_pos (by omega)]

theorem parse_wheel_branch (s : MonitorState) (data : List Nat)
    (hflag : wheel_revolution_present (byteAt data 0) = true)
    (hlen : 7 ≤ data.length) :
    parse_csc_measurement s data =
      (some { wheel_revs := some (le32 data 1), wheel_time := some (le16 data 5),
              crank_revs := (crank_fields (byteAt data 0) data 7).1,
              crank_time := (crank_fields (byteAt data 0) data 7).2,
              speed_kmh :=
                if (wheel_update s.last_wheel_revs s.last_wheel_time s.speed_kmh
                      (le32 data 1) (le16 data 5)).2 then
                  (wheel_update s.last_wheel_revs s.last_wheel_time s.speed_kmh
                      (le32 data 1) (le16 data 5)).1
                else 0 },
       { last_wheel_revs := some (le32 data 1),
         last_wheel_time := some (le16 data 5),
         speed_kmh := (wheel_update s.last_wheel_revs s.last_wheel_time
             s.speed_kmh (le32 data 1) (le16 data 5)).1 }) := by
  unfold parse_csc_measurement
  rw [if_neg (by omega), if_pos ⟨hflag, hlen⟩]

theorem parse_no_wheel_branch (s : MonitorState) (data : List Nat)
    (h1 : 1 ≤ data.length)
    (h2 : ¬(wheel_revolution_present (byteAt data 0) = true ∧ 7 ≤ data.length)) :
    parse_csc_measurement s data =
      (some { wheel_revs := none, wheel_time := none,
              crank_revs := (crank_fields (byteAt data 0) data 1).1,
              crank_time := (crank_fields (byteAt data 0) data 1).2,
              speed_kmh := 0 },
       s) := by
  unfold parse_csc_measurement
  rw [if_neg (by omega), if_neg h2]

/-! ### Claims -/

/-- **C1**: the claim says the wheel revolution-count delta is computed with
32-bit rollover correction (add `2^32` when the signed difference is
negative), so previous count `4294967290` and current count `4` should give
`count_delta = 10`.  The code (line 136 of `read.py`) performs the plain
signed subtraction with *no* correction — only the time delta is corrected —
so it yields `-4294967286`, not `10`. -/
theorem C1_count_delta_no_rollover :
    rev_diff 4294967290 4 = -4294967286 ∧ rev_diff 4294967290 4 ≠ 10 := by
  decide

/-- **C2**, counterexample: for the 1-byte buffer `[0x01]` (wheel bit set,
far fewer than 7 bytes) decoding does *not* fail with a truncation error —
the code has no such error path — it returns a measurement in which the
flagged wheel fields are silently `None`. -/
theorem C2_counterexample :
    (parse_csc_measurement initial_monitor_state [1]).1 =
      some { wheel_revs := none, wheel_time := none, crank_revs := none,
             crank_time := none, speed_kmh := 0 } := by
  decide

/-- **C2**, amended: for every notification buffer whose flags byte has the
wheel bit set but whose length is under 7 bytes, decoding succeeds (no
truncation error is signalled) and the flagged wheel fields are silently
`None` in the returned measurement. -/
theorem C2_amended_silent_none (s : MonitorState) (data : List Nat)
    (h1 : 1 ≤ data.length)
    (_hflag : wheel_revolution_present (byteAt data 0) = true)
    (hshort : data.length < 7) :
    ∃ m, (parse_csc_measurement s data).1 = some m ∧
      m.wheel_revs = none ∧ m.wheel_time = none := by
  rw [parse_no_wheel_branch s data h1 (by intro hc; omega)]
  exact ⟨_, rfl, rfl, rfl⟩

/-- Witness for `C2_amended_silent_none` at the concrete buffer `[0x01]`. -/
theorem C2_amended_silent_none_witness :
    ∃ m, (parse_csc_measurement initial_monitor_state [1]).1 = some m ∧
      m.wheel_revs = none ∧ m.wheel_time = none :=
  C2_amended_silent_none initial_monitor_state [1] (by decide) (by decide)
    (by decide)

/-- **C3**: the claim says the stored speed is non-negative after any
notification sequence from a fresh session.  Because the count delta is not
rollover-corrected (see `C1_count_delta_no_rollover`), a wheel-counter
wraparound produces a hugely negative `rev_diff` and hence a negative stored
speed: frame 1 carries count `4294967290`, time `0`; frame 2 carries count
`4`, time `1024` (one second later).  The stored `speed_kmh` after the two
frames is negative. -/
theorem C3_stored_speed_goes_negative :
    (process initial_monitor_state
      [[1, 250, 255, 255, 255, 0, 0], [1, 4, 0, 0, 0, 0, 4]]).speed_kmh < 0 := by
  have e : (process initial_monitor_state
      [[1, 250, 255, 255, 255, 0, 0], [1, 4, 0, 0, 0, 0, 4]]).speed_kmh =
      speed_from_deltas (-4294967286) 1024 := rfl
  rw [e]
  norm_num [speed_from_deltas, WHEEL_CIRCUMFERENCE_MM]

/-- When the previous sample exists and the corrected time delta is zero, the
speed-update block leaves the stored speed alone and does not execute the
`result['speed_kmh'] = self.speed_kmh` line (the `time_diff > 0` guard,
line 143 of `read.py`, fails and the division on line 147 is never reached). -/
theorem wheel_update_td_zero (lr lt : Nat) (sp : ℚ) (wr wt : Nat)
    (h : corrected_time_diff lt wt = 0) :
    wheel_update (some lr) (some lt) sp wr wt = (sp, false) := by
  simp only [wheel_update]
  rw [h, if_neg (lt_irrefl 0)]

/-- **C4**, counterexample: session state holds a previously reported speed of
`5` km/h and previous sample `(100, 500)`; the next frame carries count `103`
and the *same* event time `500` (time delta zero).  The measurement emitted
for this frame carries `speed_kmh = 0`, not the previously reported `5`:
`result['speed_kmh']` keeps its `0.0` initialiser because line 149 only runs
under `time_diff > 0`. -/
theorem C4_counterexample :
    ((parse_csc_measurement
        { last_wheel_revs := some 100, last_wheel_time := some 500,
          speed_kmh := 5 } [1, 103, 0, 0, 0, 244, 1]).1).map
      CscMeasurement.speed_kmh = some 0 ∧ (0 : ℚ) ≠ 5 := by
  decide

/-- **C4**, amended: when a wheel-containing frame is decoded against an
existing previous sample and the corrected time delta is zero, the *stored*
session speed retains its previous value, but the measurement *emitted* to the
consumer carries `speed_kmh = 0.0` (the result dictionary's initialiser), not
the previously reported speed. -/
theorem C4_amended_zero_td_emits_zero (s : MonitorState) (data : List Nat)
    (lr lt : Nat)
    (hr : s.last_wheel_revs = some lr) (ht : s.last_wheel_time = some lt)
    (hflag : wheel_revolution_present (byteAt data 0) = true)
    (hlen : 7 ≤ data.length)
    (htd : corrected_time_diff lt (le16 data 5) = 0) :
    ((parse_csc_measurement s data).1).map CscMeasurement.speed_kmh = some 0 ∧
    ((parse_csc_measurement s data).2).speed_kmh = s.speed_kmh := by
  rw [parse_wheel_branch s data hflag hlen, hr, ht,
    wheel_update_td_zero lr lt s.speed_kmh (le32 data 1) (le16 data 5) htd]
  exact ⟨rfl, rfl⟩

/-- Witness for `C4_amended_zero_td_emits_zero`: previous sample `(100, 500)`,
previously reported speed `7` km/h, frame `[0x01, 103, 0, 0, 0, 244, 1]`
(count `103`, time `500`). -/
theorem C4_amended_zero_td_emits_zero_witness :
    ((parse_csc_measurement
        { last_wheel_revs := some 100, last_wheel_time := some 500,
          speed_kmh := 7 } [1, 103, 0, 0, 0, 244, 1]).1).map
      CscMeasurement.speed_kmh = some 0 ∧
    ((parse_csc_measurement
        { last_wheel_revs := some 100, last_wheel_time := some 500,
          speed_kmh := 7 } [1, 103, 0, 0, 0, 244, 1]).2).speed_kmh = 7 :=
  C4_amended_zero_td_emits_zero
    { last_wheel_revs := some 100, last_wheel_time := some 500, speed_kmh := 7 }
    [1, 103, 0, 0, 0, 244, 1] 100 500 rfl rfl (by decide) (by decide) (by decide)

/-- **C5**, counterexample: decoding the wheel frame
`[0x01, 2, 0, 0, 0, 0, 0]` from the fresh session state mutates the session:
`last_wheel_revs` / `last_wheel_time` are overwritten with the decoded sample,
so the function is not side-effect-free. -/
theorem C5_counterexample :
    (parse_csc_measurement initial_monitor_state [1, 2, 0, 0, 0, 0, 0]).2 ≠
      initial_monitor_state := by
  decide

/-- **C5**, amended: decoding is a deterministic function of the session state
and the buffer, but it is not side-effect-free: every call either leaves the
session state unchanged (empty buffer, or no wheel field decoded) or replaces
the stored previous wheel sample with the newly decoded one (lines 151-152 of
`read.py`), also updating the stored speed when a positive time delta exists. -/
theorem C5_amended_state_evolution (s : MonitorState) (data : List Nat) :
    (parse_csc_measurement s data).2 = s ∨
    ((parse_csc_measurement s data).2.last_wheel_revs = some (le32 data 1) ∧
     (parse_csc_measurement s data).2.last_wheel_time = some (le16 data 5)) := by
  by_cases h0 : data.length = 0
  · left; rw [parse_empty s data h0]
  · by_cases hw : wheel_revolution_present (byteAt data 0) = true ∧
        7 ≤ data.length
    · right
      rw [parse_wheel_branch s data hw.1 hw.2]
      exact ⟨rfl, rfl⟩
    · left; rw [parse_no_wheel_branch s data (by omega) hw]

/-- **C6**: a malformed frame — empty, or wheel bit set with fewer than 7
bytes — leaves the stored previous wheel sample (and the whole session state)
unchanged, so the next frame is decoded against exactly the state left by the
last valid frame: parsing any follow-up frame `d2` from the post-malformed
state gives the same outcome as parsing it from the pre-malformed state. -/
theorem C6_malformed_frame_isolation (s : MonitorState) (data d2 : List Nat)
    (h : data.length = 0 ∨
      (wheel_revolution_present (byteAt data 0) = true ∧ data.length < 7)) :
    (parse_csc_measurement s data).2 = s ∧
    parse_csc_measurement (parse_csc_measurement s data).2 d2 =
      parse_csc_measurement s d2 := by
  have hs : (parse_csc_measurement s data).2 = s := by
    rcases h with h0 | ⟨hf, h7⟩
    · rw [parse_empty s data h0]
    · by_cases h0 : data.length = 0
      · rw [parse_empty s data h0]
      · rw [parse_no_wheel_branch s data (by omega)
          (fun hc => absurd hc.2 (by omega))]
  exact ⟨hs, by rw [hs]⟩

/-- Witness for `C6_malformed_frame_isolation`: a state with previous sample
`(11, 22)` and speed `3`, the malformed frame `[0x01]` (wheel bit set, 1
byte), and the follow-up frame `[0x01, 4, 0, 0, 0, 0, 4]`. -/
theorem C6_malformed_frame_isolation_witness :
    (parse_csc_measurement
        { last_wheel_revs := some 11, last_wheel_time := some 22,
          speed_kmh := 3 } [1]).2 =
      { last_wheel_revs := some 11, last_wheel_time := some 22,
        speed_kmh := 3 } ∧
    parse_csc_measurement
        (parse_csc_measurement
          { last_wheel_revs := some 11, last_wheel_time := some 22,
            speed_kmh := 3 } [1]).2 [1, 4, 0, 0, 0, 0, 4] =
      parse_csc_measurement
        { last_wheel_revs := some 11, last_wheel_time := some 22,
          speed_kmh := 3 } [1, 4, 0, 0, 0, 0, 4] :=
  C6_malformed_frame_isolation
    { last_wheel_revs := some 11, last_wheel_time := some 22, speed_kmh := 3 }
    [1] [1, 4, 0, 0, 0, 0, 4] (Or.inr ⟨by decide, by decide⟩)

/-- **C7**: whenever the corrected time delta for a wheel sample is exactly
zero, the stored session speed after the call equals its value before, for
any revolution count in the frame (the division on line 147 of `read.py`
sits inside the `time_diff > 0` branch, which is not taken). -/
theorem C7_zero_td_stored_speed_unchanged (s : MonitorState) (data : List Nat)
    (lr lt : Nat)
    (hr : s.last_wheel_revs = some lr) (ht : s.last_wheel_time = some lt)
    (htd : corrected_time_diff lt (le16 data 5) = 0) :
    ((parse_csc_measurement s data).2).speed_kmh = s.speed_kmh := by
  by_cases h0 : data.length = 0
  · rw [parse_empty s data h0]
  · by_cases hw : wheel_revolution_present (byteAt data 0) = true ∧
        7 ≤ data.length
    · rw [parse_wheel_branch s data hw.1 hw.2, hr, ht,
        wheel_update_td_zero lr lt s.speed_kmh (le32 data 1) (le16 data 5) htd]
    · rw [parse_no_wheel_branch s data (by omega) hw]

/-- Witness for `C7_zero_td_stored_speed_unchanged`: previous sample
`(100, 500)`, stored speed `5`, frame with count `103` and the same event time
`500`; the stored speed stays `5`. -/
theorem C7_zero_td_stored_speed_unchanged_witness :
    ((parse_csc_measurement
        { last_wheel_revs := some 100, last_wheel_time := some 500,
          speed_kmh := 5 } [1, 103, 0, 0, 0, 244, 1]).2).speed_kmh = 5 :=
  C7_zero_td_stored_speed_unchanged
    { last_wheel_revs := some 100, last_wheel_time := some 500, speed_kmh := 5 }
    [1, 103, 0, 0, 0, 244, 1] 100 500 rfl rfl (by decide)

/-- Evaluation of the crank block when its guard holds (line 156 of
`read.py`): both 16-bit fields are read at `offset` and `offset + 2`. -/
theorem crank_fields_pos (flags : Nat) (data : List Nat) (offset : Nat)
    (hc : crank_revolution_present flags = true)
    (hlen : offset + 4 ≤ data.length) :
    crank_fields flags data offset =
      (some (le16 data offset), some (le16 data (offset + 2))) := by
  unfold crank_fields
  rw [if_pos ⟨hc, hlen⟩]

/-- Evaluation of the crank block when its guard fails: the result keeps its
`None` defaults. -/
theorem crank_fields_neg (flags : Nat) (data : List Nat) (offset : Nat)
    (h : ¬(crank_revolution_present flags = true ∧
        offset + 4 ≤ data.length)) :
    crank_fields flags data offset = (none, none) := by
  unfold crank_fields
  rw [if_neg h]

/-- The minimum buffer length that covers every field the flags byte marks
present, read off the decoder's guards: 1 flags byte, plus 6 when the wheel
bit is set, plus 4 when the crank bit is set. -/
def required_len (flags : Nat) : Nat :=
  1 + (if wheel_revolution_present flags = true then 6 else 0) +
    (if crank_revolution_present flags = true then 4 else 0)

/-- **C8**: for every flags byte and every buffer long enough for the fields
its wheel/crank bits indicate, decoding returns exactly the flagged fields
with the little-endian values at the specified offsets (wheel: 4-byte count
at offset 1, 2-byte time at offset 5; crank: 2-byte count and 2-byte time at
offsets 7/9 after wheel data, 1/3 otherwise); clear-flag fields are `None`
and trailing unconsumed bytes are ignored (no field's value depends on
them). -/
theorem C8_decode_roundtrip (s : MonitorState) (data : List Nat)
    (h : required_len (byteAt data 0) ≤ data.length) :
    ∃ m, (parse_csc_measurement s data).1 = some m ∧
      m.wheel_revs = (if wheel_revolution_present (byteAt data 0) = true
        then some (le32 data 1) else none) ∧
      m.wheel_time = (if wheel_revolution_present (byteAt data 0) = true
        then some (le16 data 5) else none) ∧
      m.crank_revs = (if crank_revolution_present (byteAt data 0) = true
        then some (le16 data (if wheel_revolution_present (byteAt data 0) =
          true then 7 else 1)) else none) ∧
      m.crank_time = (if crank_revolution_present (byteAt data 0) = true
        then some (le16 data (if wheel_revolution_present (byteAt data 0) =
          true then 9 else 3)) else none) := by
  by_cases hw : wheel_revolution_present (byteAt data 0) = true
  · have h7 : 7 ≤ data.length := by
      simp only [required_len] at h
      rw [if_pos hw] at h
      split at h <;> omega
    rw [parse_wheel_branch s data hw h7]
    refine ⟨_, rfl, by rw [if_pos hw], by rw [if_pos hw], ?_, ?_⟩
    · by_cases hc : crank_revolution_present (byteAt data 0) = true
      · have h11 : 11 ≤ data.length := by
          simp only [required_len] at h
          rw [if_pos hw, if_pos hc] at h
          omega
        rw [crank_fields_pos (byteAt data 0) data 7 hc (by omega), if_pos hc,
          if_pos hw]
      · rw [crank_fields_neg (byteAt data 0) data 7 (fun hcc => hc hcc.1),
          if_neg hc]
    · by_cases hc : crank_revolution_present (byteAt data 0) = true
      · have h11 : 11 ≤ data.length := by
          simp only [required_len] at h
          rw [if_pos hw, if_pos hc] at h
          omega
        rw [crank_fields_pos (byteAt data 0) data 7 hc (by omega), if_pos hc,
          if_pos hw]
      · rw [crank_fields_neg (byteAt data 0) data 7 (fun hcc => hc hcc.1),
          if_neg hc]
  · have h1 : 1 ≤ data.length := by
      refine le_trans ?_ h
      simp only [required_len]
      split <;> split <;> omega
    rw [parse_no_wheel_branch s data h1 (fun hcc => hw hcc.1)]
    refine ⟨_, rfl, by rw [if_neg hw], by rw [if_neg hw], ?_, ?_⟩
    · by_cases hc : crank_revolution_present (byteAt data 0) = true
      · have h5 : 5 ≤ data.length := by
          simp only [required_len] at h
          rw [if_neg hw, if_pos hc] at h
          omega
        rw [crank_fields_pos (byteAt data 0) data 1 hc (by omega), if_pos hc,
          if_neg hw]
      · rw [crank_fields_neg (byteAt data 0) data 1 (fun hcc => hc hcc.1),
          if_neg hc]
    · by_cases hc : crank_revolution_present (byteAt data 0) = true
      · have h5 : 5 ≤ data.length := by
          simp only [required_len] at h
          rw [if_neg hw, if_pos hc] at h
          omega
        rw [crank_fields_pos (byteAt data 0) data 1 hc (by omega), if_pos hc,
          if_neg hw]
      · rw [crank_fields_neg (byteAt data 0) data 1 (fun hcc => hc hcc.1),
          if_neg hc]

/-- Witness for `C8_decode_roundtrip`: flags `0x03` (wheel and crank), wheel
count `1`, wheel time `2`, crank count `3`, crank time `4`, plus one trailing
byte `99` that is ignored. -/
theorem C8_decode_roundtrip_witness :
    ∃ m, (parse_csc_measurement initial_monitor_state
        [3, 1, 0, 0, 0, 2, 0, 3, 0, 4, 0, 99]).1 = some m ∧
      m.wheel_revs = some 1 ∧ m.wheel_time = some 2 ∧
      m.crank_revs = some 3 ∧ m.crank_time = some 4 := by
  have h := C8_decode_roundtrip initial_monitor_state
    [3, 1, 0, 0, 0, 2, 0, 3, 0, 4, 0, 99] (by decide)
  simpa using h

/-- **C9**: with circumference `2105` mm, `count_delta = 3` and
`time_delta = 1024` (exactly one second), the code's speed formula yields
`22.734` km/h to within `1e-6` (in the exact-rational model it is `22.734`
on the nose). -/
theorem C9_speed_concrete_case :
    |speed_from_deltas 3 1024 - 22734 / 1000| ≤ 1 / 1000000 ∧
    WHEEL_CIRCUMFERENCE_MM = 2105 := by
  constructor
  · norm_num [speed_from_deltas, WHEEL_CIRCUMFERENCE_MM]
  · rfl

/-- **C10**: when the wheel bit is set but the buffer has only 5 or 6 bytes
and the crank bit is also set, the wheel block is skipped *without advancing
the offset*, so the crank fields are read from offsets 1 and 3 — the very
bytes where wheel data would begin — with the wheel fields `None` and no
error signalled. -/
theorem C10_crank_read_at_wheel_offset (s : MonitorState) (data : List Nat)
    (_hw : wheel_revolution_present (byteAt data 0) = true)
    (hc : crank_revolution_present (byteAt data 0) = true)
    (h5 : 5 ≤ data.length) (h7 : data.length < 7) :
    ∃ m, (parse_csc_measurement s data).1 = some m ∧
      m.wheel_revs = none ∧ m.wheel_time = none ∧
      m.crank_revs = some (le16 data 1) ∧
      m.crank_time = some (le16 data 3) := by
  rw [parse_no_wheel_branch s data (by omega)
    (fun hcc => absurd hcc.2 (by omega))]
  rw [crank_fields_pos (byteAt data 0) data 1 hc (by omega)]
  exact ⟨_, rfl, rfl, rfl, rfl, rfl⟩

/-- Witness for `C10_crank_read_at_wheel_offset`: buffer
`[0x03, 10, 0, 20, 0]` (both bits set, 5 bytes) decodes to crank count `10`
and crank time `20` read from offsets 1 and 3, wheel fields `None`. -/
theorem C10_crank_read_at_wheel_offset_witness :
    ∃ m, (parse_csc_measurement initial_monitor_state
        [3, 10, 0, 20, 0]).1 = some m ∧
      m.wheel_revs = none ∧ m.wheel_time = none ∧
      m.crank_revs = some 10 ∧ m.crank_time = some 20 :=
  C10_crank_read_at_wheel_offset initial_monitor_state [3, 10, 0, 20, 0]
    (by decide) (by decide) (by decide) (by decide)
